import Mathlib

/-!
Verification of the search–filter–paginate pipeline of the Omarchy-dotfiles
repository.  The pipeline appears twice in the source, once for past papers
(`pastPaperPage`, page size 9, score threshold 0.6) and once for forum posts
(`forum`, page size 5, score threshold 0.8).  The embedding below translates
the JavaScript/TypeScript functions into Lean:

* `validatePage` — the page validator; it is byte-identical in the two
  source files, so a single Lean definition serves both.
* `PastPapers.performSearch` / `Forum.performSearch` — the post-processing
  of the third-party fuzzy-search results (filter on a falsy-coalesced
  score against the listing threshold, then project the item).  The fuzzy
  library itself (Fuse.js) is external to the repository, so its raw result
  list is a parameter of type `List (FuseResult α)`.
* `tagFilter` — the tag filter from the development-mode branch of the
  pages (`items.filter` with empty-tag pass-through and an existential
  tag-name match).
* `PastPapers.pastPaperPage` / `Forum.forum` — the database-branch
  orchestration: optional fuzzy stage, total-page computation, page
  validation, slicing, and the redirect-versus-render decision.

JavaScript numbers that can be `NaN` (the parsed page parameter) are
modelled by `JNum`; `Array.prototype.slice` is modelled by `jsSlice` with
the ECMAScript clamping rules; `Math.ceil(count / pageSize)` on
non-negative integers is `jsCeilDuv`; the JavaScript `!==` comparison of
the validated page against the possibly-NaN raw page is `jsNumEq`
(NaN compares unequal to everything, itself included).
-/

/-- A JavaScript number that is either an integer or `NaN`
(the result of `parseInt` on the raw page parameter). -/
inductive JNum where
  | nan
  | int (n : Int)
deriving DecidableEq, Repr

/-- Translation of the source function

```
function validatePage(page: number, totalPages: number): number {
    if (isNaN(page) || page < 1) { return 1; }
    if (page > totalPages && totalPages > 0) { return totalPages; }
    return page;
}
```

It is identical in the past-papers page and in the forum page. -/
def validatePage (page : JNum) (totalPages : Int) : Int :=
  match page with
  | .nan => 1
  | .int p =>
    if p < 1 then 1
    else if p > totalPages ∧ totalPages > 0 then totalPages
    else p

/-- JavaScript strict equality `v === page` between the validated page
(an actual integer) and the raw parsed page (possibly `NaN`); `NaN` is
unequal to every number. The source tests the negation
(`validatedPage !== page`) to decide whether to redirect. -/
def jsNumEq (v : Int) : JNum → Bool
  | .nan => false
  | .int p => v == p

/-- `Array.prototype.slice(start, stop)` with the ECMAScript clamping
rules: a negative index counts from the end, indices are clamped into
`[0, length]`, and an empty slice is returned when the range is empty or
out of bounds. -/
def jsSlice {α : Type} (xs : List α) (start stop : Int) : List α :=
  let len : Int := xs.length
  let s : Int := if start < 0 then max (len + start) 0 else min start len
  let e : Int := if stop < 0 then max (len + stop) 0 else min stop len
  (xs.drop s.toNat).take (e - s).toNat

/-- `Math.ceil(totalCount / pageSize)` for non-negative integer inputs, as
used by both pages to compute `totalPages`. -/
def jsCeilDuv (a b : Nat) : Nat := (a + b - 1) / b

/-- One entry of the result list returned by the external fuzzy-search
library (`fuse.search(...)` with `includeScore: true`): the matched item
together with its optional aggregate score. In JavaScript the `score`
field may be absent, hence `Option`. -/
structure FuseResult (α : Type) where
  item : α
  score : Option ℚ
deriving DecidableEq, Repr

/-- The falsy-coalescing expression `fuseResult.score || 1` from both
`performSearch` functions: an absent score and a score of exactly `0`
(both falsy in JavaScript) are replaced by `1`. -/
def scoreOr1 : Option ℚ → ℚ
  | none => 1
  | some s => if s = 0 then 1 else s

namespace PastPapers

/-- `const SCORE_THRESHOLD = 0.6;` in the past-papers page. -/
def SCORE_THRESHOLD : ℚ := 0.6

/-- The repository-owned tail of the past-papers `performSearch`:

```
return searchResults
    .filter((fuseResult) => (fuseResult.score || 1) < SCORE_THRESHOLD)
    .map((fuseResult) => fuseResult.item);
```

`searchResults` is the output of the external Fuse.js call. -/
def performSearch {α : Type} (searchResults : List (FuseResult α)) : List α :=
  (searchResults.filter
    (fun fuseResult => decide (scoreOr1 fuseResult.score < SCORE_THRESHOLD))).map
    (fun fuseResult => fuseResult.item)

end PastPapers

namespace Forum

/-- `const SCORE_THRESHOLD = 0.8;` in the forum page. -/
def SCORE_THRESHOLD : ℚ := 0.8

/-- The repository-owned tail of the forum `performSearch`; same shape as
the past-papers one but filtered against the forum threshold. -/
def performSearch {α : Type} (searchResults : List (FuseResult α)) : List α :=
  (searchResults.filter
    (fun fuseResult => decide (scoreOr1 fuseResult.score < SCORE_THRESHOLD))).map
    (fun fuseResult => fuseResult.item)

end Forum

/-- A tag record: a name plus alias strings (ids and timestamps of the
source records are irrelevant to the filter and omitted). -/
structure Tag where
  name : String
  aliases : List String
deriving DecidableEq, Repr

/-- A searchable item as the tag filter sees it: an identifier, a title
and a tag list (the remaining source fields play no role in filtering). -/
structure Paper where
  id : String
  title : String
  tags : List Tag
deriving DecidableEq, Repr

/-- Translation of the tag filter of the pages (development-mode branch,
identical logic in both files):

```
items.filter(paper => {
    if (tags.length === 0) return true;
    return tags.some(tag => paper.tags.some(paperTag => paperTag.name === tag));
});
```
-/
def tagFilter (tags : List String) (items : List Paper) : List Paper :=
  items.filter (fun paper =>
    if tags.length = 0 then true
    else tags.any (fun tag => paper.tags.any (fun paperTag => paperTag.name == tag)))

/-- The observable outcome of one pipeline run: either a redirect to the
canonical page (the source serialises the validated page, the search query
and the comma-joined tags into the redirect URL; the model carries the
three components) or a rendered page of items with the current page and
the page count. -/
inductive Outcome (α : Type) where
  | redirect (canonicalPage : Int) (search : String) (tags : List String)
  | render (items : List α) (currentPage : Int) (totalPages : Int)
deriving DecidableEq, Repr

namespace PastPapers

/-- `const pageSize = 9;` in `pastPaperPage`. -/
def pageSize : Nat := 9

/-- The filtered dataset of the database branch of `pastPaperPage` after
the optional fuzzy stage: `if (search) { filteredPastPapers =
performSearch(search, filteredPastPapers); }`.  The external Fuse.js call
inside `performSearch` is the parameter `fuse`. -/
def filteredPastPapers {α : Type} (fuse : List α → List (FuseResult α))
    (search : String) (dataSet : List α) : List α :=
  if search = "" then dataSet else performSearch (fuse dataSet)

/-- `Math.ceil(totalCount / pageSize)` of the post-filter set. -/
def totalPagesOf {α : Type} (fuse : List α → List (FuseResult α))
    (search : String) (dataSet : List α) : Nat :=
  jsCeilDuv (filteredPastPapers fuse search dataSet).length pageSize

/-- The database branch of `pastPaperPage` from the fetched dataset to its
outcome: optional fuzzy stage, `totalPages`, `validatePage`, the
`slice(startIndex, endIndex)` page, and `redirect` when
`validatedPage !== page`, else rendering the page. -/
def pastPaperPage {α : Type} (fuse : List α → List (FuseResult α))
    (search : String) (page : JNum) (tags : List String) (dataSet : List α) :
    Outcome α :=
  let filtered := filteredPastPapers fuse search dataSet
  let totalPages : Int := jsCeilDuv filtered.length pageSize
  let validatedPage := validatePage page totalPages
  let startIndex := (validatedPage - 1) * (pageSize : Int)
  let endIndex := startIndex + (pageSize : Int)
  let paginatedPastPapers := jsSlice filtered startIndex endIndex
  if jsNumEq validatedPage page then
    .render paginatedPastPapers validatedPage totalPages
  else
    .redirect validatedPage search tags

end PastPapers

namespace Forum

/-- `const pageSize = 5;` in `forum`. -/
def pageSize : Nat := 5

/-- The filtered dataset of the database branch of `forum` after the
optional fuzzy stage, as for the past papers. -/
def filteredForumPosts {α : Type} (fuse : List α → List (FuseResult α))
    (search : String) (dataSet : List α) : List α :=
  if search = "" then dataSet else performSearch (fuse dataSet)

/-- `Math.ceil(totalCount / pageSize)` of the post-filter set. -/
def totalPagesOf {α : Type} (fuse : List α → List (FuseResult α))
    (search : String) (dataSet : List α) : Nat :=
  jsCeilDuv (filteredForumPosts fuse search dataSet).length pageSize

/-- The database branch of `forum` from the fetched dataset to its
outcome; identical orchestration to the past-papers page with page size 5
and the forum search threshold. -/
def forum {α : Type} (fuse : List α → List (FuseResult α))
    (search : String) (page : JNum) (tags : List String) (dataSet : List α) :
    Outcome α :=
  let filtered := filteredForumPosts fuse search dataSet
  let totalPages : Int := jsCeilDuv filtered.length pageSize
  let validatedPage := validatePage page totalPages
  let startIndex := (validatedPage - 1) * (pageSize : Int)
  let endIndex := startIndex + (pageSize : Int)
  let paginatedForumPosts := jsSlice filtered startIndex endIndex
  if jsNumEq validatedPage page then
    .render paginatedForumPosts validatedPage totalPages
  else
    .redirect validatedPage search tags

end Forum

/-- The page slice used by both pages: `startIndex = (page - 1) * pageSize`,
`endIndex = startIndex + pageSize`, `items.slice(startIndex, endIndex)`. -/
def pageSlice {α : Type} (items : List α) (page : Nat) (pageSize : Nat) : List α :=
  jsSlice items (((page : Int) - 1) * pageSize) (((page : Int) - 1) * pageSize + pageSize)

section Theorems

/-- Claim C1, counterexample: with `totalPages = 0` and requested page `2`,
`validatePage` returns `2`, which lies outside the claimed interval
`[1, max(totalPages, 1)] = [1, 1]`. -/
theorem validatePage_interval_cex :
    validatePage (JNum.int 2) 0 = 2 ∧ ¬ ((2 : Int) ≤ max (0 : Int) 1) := by
  decide

/-- Claim C1 (amended): `validatePage p t` is always at least 1; it lies in
`[1, max(t, 1)]` whenever `t ≥ 1` (the clamp to `totalPages` only fires
when `totalPages > 0`, so for `t = 0` the result can exceed the interval);
and it equals the requested page `n` whenever `1 ≤ n ≤ t`. -/
theorem validatePage_bounds (t : Int) (p : JNum) :
    1 ≤ validatePage p t ∧
    (1 ≤ t → validatePage p t ≤ max t 1) ∧
    (∀ n : Int, p = JNum.int n → 1 ≤ n → n ≤ t → validatePage p t = n) := by
  rcases p with _ | n
  · refine ⟨le_refl 1, fun _ => ?_, fun n h => by cases h⟩
    exact le_max_right t 1
  · refine ⟨?_, ?_, ?_⟩
    · simp only [validatePage]
      split_ifs with h1 h2 <;> omega
    · intro ht
      have hm : max t 1 = t := max_eq_left ht
      simp only [validatePage]
      split_ifs with h1 h2 <;> omega
    · rintro m hm h1 h2
      cases hm
      simp only [validatePage]
      rw [if_neg (by omega), if_neg (by omega)]

/-- Witness for `validatePage_bounds` at `t = 5`, `p = 3`. -/
theorem validatePage_bounds_witness :
    1 ≤ validatePage (JNum.int 3) 5 ∧
    validatePage (JNum.int 3) 5 ≤ max (5 : Int) 1 ∧
    validatePage (JNum.int 3) 5 = 3 :=
  ⟨(validatePage_bounds 5 (JNum.int 3)).1,
   (validatePage_bounds 5 (JNum.int 3)).2.1 (by decide),
   (validatePage_bounds 5 (JNum.int 3)).2.2 3 rfl (by decide) (by decide)⟩

/-- Claim C2: `validatePage` returns 1 on `NaN` and on any page below 1,
returns `totalPages` when the page exceeds a positive `totalPages`, and
otherwise returns the requested page unchanged; as a Lean function it is
pure and total over all integer-or-NaN inputs by construction. -/
theorem validatePage_cases (t p : Int) :
    validatePage JNum.nan t = 1 ∧
    (p < 1 → validatePage (JNum.int p) t = 1) ∧
    (p > t → t > 0 → validatePage (JNum.int p) t = t) ∧
    (1 ≤ p → ¬(p > t ∧ t > 0) → validatePage (JNum.int p) t = p) := by
  refine ⟨rfl, ?_, ?_, ?_⟩
  · intro h
    simp only [validatePage]
    rw [if_pos h]
  · intro h1 h2
    simp only [validatePage]
    rw [if_neg (by omega), if_pos ⟨h1, h2⟩]
  · intro h1 h2
    simp only [validatePage]
    rw [if_neg (by omega), if_neg h2]

/-- Witness for `validatePage_cases`: the three non-trivial branches at
concrete inputs. -/
theorem validatePage_cases_witness :
    validatePage (JNum.int 0) 5 = 1 ∧
    validatePage (JNum.int 9) 2 = 2 ∧
    validatePage (JNum.int 2) 5 = 2 :=
  ⟨(validatePage_cases 5 0).2.1 (by decide),
   (validatePage_cases 2 9).2.2.1 (by decide) (by decide),
   (validatePage_cases 5 2).2.2.2 (by decide) (by decide)⟩

/-- Claim C9: filtering with an empty tag set is the identity on the item
list — same items, same order. -/
theorem tagFilter_empty_tags (items : List Paper) : tagFilter [] items = items := by
  simp [tagFilter]

/-- Helper: for a non-empty requested tag list, the tag filter is an
ordinary `List.filter` by the existential tag-name test. -/
theorem tagFilter_ne_empty (tags : List String) (items : List Paper)
    (hne : tags ≠ []) :
    tagFilter tags items =
      items.filter
        (fun paper => tags.any (fun tag => paper.tags.any (fun paperTag => paperTag.name == tag))) := by
  unfold tagFilter
  have hlen : tags.length ≠ 0 := fun h => hne (List.length_eq_zero.mp h)
  simp only [if_neg hlen]

/-- Claim C8: for a non-empty tag set, an item survives the tag filter iff
its tag-name set meets the requested set (OR semantics); the output is a
sublist of the input (original relative order, no duplication); every
surviving item keeps its exact multiplicity, so an item occurring once
appears exactly once; and filtering by a single tag returns exactly as
many items as carry that tag. -/
theorem tagFilter_or_semantics (tags : List String) (items : List Paper)
    (hne : tags ≠ []) :
    (∀ x, x ∈ tagFilter tags items ↔
        x ∈ items ∧ ∃ t ∈ tags, ∃ paperTag ∈ x.tags, paperTag.name = t) ∧
    (tagFilter tags items).Sublist items ∧
    (∀ x ∈ tagFilter tags items,
        (tagFilter tags items).count x = items.count x) ∧
    (∀ t, tags = [t] →
        (tagFilter tags items).length =
          items.countP (fun paper => paper.tags.any (fun paperTag => paperTag.name == t))) := by
  rw [tagFilter_ne_empty tags items hne]
  refine ⟨?_, List.filter_sublist items, ?_, ?_⟩
  · intro x
    simp [List.mem_filter, List.any_eq_true, beq_iff_eq]
  · intro x hx
    exact List.count_filter (List.mem_filter.mp hx).2
  · rintro t rfl
    rw [List.countP_eq_length_filter]
    congr 1
    apply List.filter_congr
    intro paper _
    simp [List.any_eq_true]

/-- Witness for `tagFilter_or_semantics` on a concrete two-item dataset
with requested tags `["CAT 1"]`. -/
theorem tagFilter_or_semantics_witness :
    let p1 : Paper := ⟨"1", "DSA", [⟨"CAT 1", []⟩, ⟨"A1", []⟩]⟩
    let p2 : Paper := ⟨"2", "CN", [⟨"CAT 2", []⟩]⟩
    (p1 ∈ tagFilter ["CAT 1"] [p1, p2] ↔
        p1 ∈ [p1, p2] ∧ ∃ t ∈ ["CAT 1"], ∃ paperTag ∈ p1.tags, paperTag.name = t) ∧
    (tagFilter ["CAT 1"] [p1, p2]).Sublist [p1, p2] ∧
    (tagFilter ["CAT 1"] [p1, p2]).length =
      List.countP (fun paper => paper.tags.any (fun paperTag => paperTag.name == "CAT 1")) [p1, p2] := by
  intro p1 p2
  have h := tagFilter_or_semantics ["CAT 1"] [p1, p2] (by simp)
  exact ⟨h.1 p1, h.2.1, h.2.2.2 "CAT 1" rfl⟩

/-- Claim C10: an empty search query skips the fuzzy stage entirely in
both pipelines — the tag-filtered dataset passes through to the
pagination stage unchanged and in its original order. -/
theorem empty_search_skips_fuzzy {α : Type} (fuse : List α → List (FuseResult α))
    (dataSet : List α) :
    PastPapers.filteredPastPapers fuse "" dataSet = dataSet ∧
    Forum.filteredForumPosts fuse "" dataSet = dataSet :=
  ⟨rfl, rfl⟩

/-- Helper: an item emitted by the score filter of `performSearch` (for any
threshold at most 1) comes from a result whose underlying score is present,
non-zero and strictly below the threshold. -/
theorem score_filter_mem {α : Type} (thr : ℚ) (hthr : thr ≤ 1)
    (rs : List (FuseResult α)) (x : α)
    (hx : x ∈ (rs.filter (fun r => decide (scoreOr1 r.score < thr))).map (fun r => r.item)) :
    ∃ r ∈ rs, r.item = x ∧ ∃ v, r.score = some v ∧ v < thr := by
  obtain ⟨r, hr, hitem⟩ := List.mem_map.mp hx
  obtain ⟨hmem, hscore⟩ := List.mem_filter.mp hr
  rw [decide_eq_true_eq] at hscore
  refine ⟨r, hmem, hitem, ?_⟩
  rcases h : r.score with _ | v
  · rw [h] at hscore
    simp only [scoreOr1] at hscore
    exact absurd hscore (by exact absurd (lt_of_lt_of_le hscore hthr) (lt_irrefl 1))
  · rw [h] at hscore
    simp only [scoreOr1] at hscore
    split_ifs at hscore with hv
    · exact absurd (lt_of_lt_of_le hscore hthr) (lt_irrefl 1)
    · exact ⟨v, rfl, hscore⟩

/-- Helper: if every result carrying the item has an underlying score that
is not strictly below the threshold, the score filter of `performSearch`
(for any threshold at most 1) never emits the item. -/
theorem score_filter_not_mem {α : Type} (thr : ℚ) (hthr : thr ≤ 1)
    (rs : List (FuseResult α)) (x : α)
    (hbig : ∀ r ∈ rs, r.item = x → ∀ v, r.score = some v → ¬ v < thr) :
    x ∉ (rs.filter (fun r => decide (scoreOr1 r.score < thr))).map (fun r => r.item) := by
  intro hx
  obtain ⟨r, hmem, hitem, v, hv, hlt⟩ := score_filter_mem thr hthr rs x hx
  exact hbig r hmem hitem v hv hlt

/-- Claim C5: the two listings use distinct thresholds (0.6 for the
single-field past-papers search, 0.8 for the multi-field forum search);
every item emitted by either `performSearch` stems from a fuzzy result
whose aggregate score is strictly below that listing threshold; and an
item all of whose results score at or above the threshold is excluded
entirely, never emitted with a sentinel score. -/
theorem performSearch_threshold {α : Type} (rs : List (FuseResult α)) (x : α) :
    (PastPapers.SCORE_THRESHOLD = 0.6 ∧ Forum.SCORE_THRESHOLD = 0.8) ∧
    (x ∈ PastPapers.performSearch rs →
      ∃ r ∈ rs, r.item = x ∧ ∃ v, r.score = some v ∧ v < PastPapers.SCORE_THRESHOLD) ∧
    (x ∈ Forum.performSearch rs →
      ∃ r ∈ rs, r.item = x ∧ ∃ v, r.score = some v ∧ v < Forum.SCORE_THRESHOLD) ∧
    ((∀ r ∈ rs, r.item = x → ∀ v, r.score = some v → ¬ v < PastPapers.SCORE_THRESHOLD) →
      x ∉ PastPapers.performSearch rs) ∧
    ((∀ r ∈ rs, r.item = x → ∀ v, r.score = some v → ¬ v < Forum.SCORE_THRESHOLD) →
      x ∉ Forum.performSearch rs) := by
  have h06 : PastPapers.SCORE_THRESHOLD ≤ 1 := by norm_num [PastPapers.SCORE_THRESHOLD]
  have h08 : Forum.SCORE_THRESHOLD ≤ 1 := by norm_num [Forum.SCORE_THRESHOLD]
  exact ⟨⟨rfl, rfl⟩,
    fun hx => score_filter_mem _ h06 rs x hx,
    fun hx => score_filter_mem _ h08 rs x hx,
    fun hbig => score_filter_not_mem _ h06 rs x hbig,
    fun hbig => score_filter_not_mem _ h08 rs x hbig⟩

/-- Witness for `performSearch_threshold`: a score of 0.5 is emitted by the
past-papers search with an underlying score below 0.6, and an item whose
only score is 0.9 is not emitted. -/
theorem performSearch_threshold_witness :
    (∃ r ∈ [FuseResult.mk (2 : Nat) (some 0.5)],
        r.item = 2 ∧ ∃ v, r.score = some v ∧ v < PastPapers.SCORE_THRESHOLD) ∧
    (3 : Nat) ∉ PastPapers.performSearch [FuseResult.mk (3 : Nat) (some 0.9)] := by
  constructor
  · refine (performSearch_threshold [FuseResult.mk (2 : Nat) (some 0.5)] 2).2.1 ?_
    norm_num [PastPapers.performSearch, List.filter, scoreOr1, PastPapers.SCORE_THRESHOLD]
  · refine (performSearch_threshold [FuseResult.mk (3 : Nat) (some 0.9)] 3).2.2.2.1 ?_
    intro r hr hitem v hv
    rw [List.mem_singleton] at hr
    subst hr
    cases hv
    norm_num [PastPapers.SCORE_THRESHOLD]

/-- Claim C6: the falsy-coalescing `fuseResult.score || 1` replaces a
perfect score of exactly 0 by 1 before the strict threshold test, so a
result set consisting of perfect matches is emitted by neither version of
`performSearch`. -/
theorem perfect_score_excluded {α : Type} (rs : List (FuseResult α))
    (hzero : ∀ r ∈ rs, r.score = some 0) :
    scoreOr1 (some 0) = 1 ∧
    PastPapers.performSearch rs = [] ∧ Forum.performSearch rs = [] := by
  refine ⟨by norm_num [scoreOr1], ?_, ?_⟩ <;>
  · simp only [PastPapers.performSearch, Forum.performSearch]
    rw [List.filter_eq_nil_iff.mpr, List.map_nil]
    intro r hr
    rw [hzero r hr]
    norm_num [scoreOr1, PastPapers.SCORE_THRESHOLD, Forum.SCORE_THRESHOLD]

/-- Witness for `perfect_score_excluded` on a one-element result list with
score exactly 0. -/
theorem perfect_score_excluded_witness :
    scoreOr1 (some 0) = 1 ∧
    PastPapers.performSearch [FuseResult.mk (1 : Nat) (some 0)] = [] ∧
    Forum.performSearch [FuseResult.mk (1 : Nat) (some 0)] = [] :=
  perfect_score_excluded [FuseResult.mk (1 : Nat) (some 0)]
    (by intro r hr; rw [List.mem_singleton] at hr; subst hr; rfl)

/-- Helper: for a natural start index and width, the JavaScript slice
`xs.slice(s, s + k)` is `take k` after `drop s`. -/
theorem jsSlice_natCast {α : Type} (xs : List α) (s k : Nat) :
    jsSlice xs (s : Int) ((s : Int) + (k : Int)) = (xs.drop s).take k := by
  simp only [jsSlice]
  rw [if_neg (by omega), if_neg (by omega)]
  have hmin1 : min (s : Int) (xs.length : Int) = ((min s xs.length : Nat) : Int) := by
    rw [Nat.cast_min]
  have hmin2 : min ((s : Int) + (k : Int)) (xs.length : Int)
      = ((min (s + k) xs.length : Nat) : Int) := by
    rw [Nat.cast_min]
    push_cast
    rfl
  rw [hmin1, hmin2, Int.toNat_natCast]
  have hsub : (((min (s + k) xs.length : Nat) : Int) - ((min s xs.length : Nat) : Int)).toNat
      = min (s + k) xs.length - min s xs.length := by omega
  rw [hsub]
  rcases le_or_lt s xs.length with h | h
  · rw [min_eq_left h]
    rcases le_or_lt (s + k) xs.length with h2 | h2
    · rw [min_eq_left h2]
      congr 1
      omega
    · rw [min_eq_right h2.le]
      have e1 : (xs.drop s).take (xs.length - s) = xs.drop s :=
        List.take_of_length_le (List.length_drop s xs).le
      have e2 : (xs.drop s).take k = xs.drop s :=
        List.take_of_length_le (by rw [List.length_drop]; omega)
      rw [e1, e2]
  · rw [min_eq_right h.le, min_eq_right (by omega), Nat.sub_self, List.take_zero]
    rw [List.drop_eq_nil_of_le h.le, List.take_nil]

/-- Helper: concatenating `n` consecutive `take pageSize ∘ drop (i * pageSize)`
chunks of a list of length at most `n * pageSize` rebuilds the list. -/
theorem flatten_take_chunks {α : Type} (ps : Nat) :
    ∀ (n : Nat) (xs : List α), xs.length ≤ n * ps →
      ((List.range n).map (fun i => (xs.drop (i * ps)).take ps)).flatten = xs := by
  intro n
  induction n with
  | zero =>
    intro xs h
    rw [Nat.zero_mul, Nat.le_zero] at h
    rw [List.eq_nil_of_length_eq_zero h]
    rfl
  | succ n ih =>
    intro xs h
    rw [List.range_succ_eq_map, List.map_cons, List.flatten_cons, List.map_map]
    have hfun : ((fun i => (xs.drop (i * ps)).take ps) ∘ Nat.succ)
        = fun i => ((xs.drop ps).drop (i * ps)).take ps := by
      funext i
      simp only [Function.comp_apply, List.drop_drop]
      congr 2
      rw [Nat.succ_mul]
      omega
    rw [hfun]
    rw [ih (xs.drop ps) (by rw [List.length_drop, Nat.succ_mul] at *; omega)]
    simp only [Nat.zero_mul, List.drop_zero]
    exact List.take_append_drop ps xs

/-- Helper: `totalPages * pageSize` covers the whole list, where
`totalPages` is the ceiling division used by the pages. -/
theorem le_jsCeilDuv_mul (a b : Nat) (hb : 0 < b) : a ≤ jsCeilDuv a b * b := by
  have h : a ≤ b • (a ⌈/⌉ b) := le_smul_ceilDiv hb
  rw [smul_eq_mul, Nat.ceilDiv_eq_add_pred_div, Nat.mul_comm] at h
  exact h

/-- Helper: the page slice for page `i + 1` is chunk `i`. -/
theorem pageSlice_succ {α : Type} (items : List α) (i ps : Nat) :
    pageSlice items (i + 1) ps = (items.drop (i * ps)).take ps := by
  unfold pageSlice
  have e1 : (((i + 1 : Nat) : Int) - 1) * (ps : Int) = ((i * ps : Nat) : Int) := by
    push_cast
    ring
  rw [e1]
  exact jsSlice_natCast items (i * ps) ps

/-- Claim C7: for any positive page size and `totalPages` computed by the
ceiling division of the pages, the concatenation of the page slices for
pages 1 through `totalPages` reconstructs the filtered dataset exactly (no
overlaps, no omissions), and a page slice that starts at or beyond the end
of the data yields the empty list rather than an error. -/
theorem pagination_reconstructs {α : Type} (items : List α) (pageSize : Nat)
    (hps : 0 < pageSize) :
    ((List.range (jsCeilDuv items.length pageSize)).map
        (fun i => pageSlice items (i + 1) pageSize)).flatten = items ∧
    (∀ page : Nat, items.length ≤ (page - 1) * pageSize →
      pageSlice items page pageSize = []) := by
  constructor
  · have hfun : (fun i => pageSlice items (i + 1) pageSize)
        = fun i => (items.drop (i * pageSize)).take pageSize :=
      funext fun i => pageSlice_succ items i pageSize
    rw [hfun]
    exact flatten_take_chunks pageSize (jsCeilDuv items.length pageSize) items
      (le_jsCeilDuv_mul items.length pageSize hps)
  · intro page hpage
    rcases Nat.eq_zero_or_pos page with rfl | hp
    · have h0 : items = [] := by
        apply List.eq_nil_of_length_eq_zero
        simpa using hpage
      rw [h0]
      simp [pageSlice, jsSlice]
    · obtain ⟨m, rfl⟩ : ∃ m, page = m + 1 := ⟨page - 1, by omega⟩
      rw [Nat.add_sub_cancel] at hpage
      rw [pageSlice_succ, List.drop_eq_nil_of_le hpage, List.take_nil]

/-- Witness for `pagination_reconstructs`: five items with page size 2 are
rebuilt from three pages, and page 4 is empty. -/
theorem pagination_reconstructs_witness :
    ((List.range (jsCeilDuv ([1, 2, 3, 4, 5] : List ℕ).length 2)).map
        (fun i => pageSlice [1, 2, 3, 4, 5] (i + 1) 2)).flatten = [1, 2, 3, 4, 5] ∧
    pageSlice ([1, 2, 3, 4, 5] : List ℕ) 4 2 = [] := by
  have h := pagination_reconstructs ([1, 2, 3, 4, 5] : List ℕ) 2 (by decide)
  exact ⟨h.1, h.2 4 (by decide)⟩

/-- Helper: slicing the empty list always yields the empty list. -/
theorem jsSlice_nil {α : Type} (start stop : Int) :
    jsSlice ([] : List α) start stop = [] := by
  simp [jsSlice]

/-- Claim C4: whenever the validated page differs from the raw requested
page (under JavaScript `!==`, so also for a NaN page), both pipelines emit
a Redirect outcome carrying the canonical validated page together with the
original search query and tag parameters; the redirect branch takes
precedence over rendering, and the Redirect outcome carries no items. -/
theorem redirect_on_page_mismatch {α : Type} (fuse : List α → List (FuseResult α))
    (search : String) (page : JNum) (tags : List String) (dataSet : List α) :
    (jsNumEq (validatePage page (PastPapers.totalPagesOf fuse search dataSet : Nat)) page = false →
      PastPapers.pastPaperPage fuse search page tags dataSet =
        Outcome.redirect (validatePage page (PastPapers.totalPagesOf fuse search dataSet : Nat))
          search tags) ∧
    (jsNumEq (validatePage page (Forum.totalPagesOf fuse search dataSet : Nat)) page = false →
      Forum.forum fuse search page tags dataSet =
        Outcome.redirect (validatePage page (Forum.totalPagesOf fuse search dataSet : Nat))
          search tags) := by
  constructor
  · intro h
    simp only [PastPapers.totalPagesOf] at h
    simp only [PastPapers.pastPaperPage]
    rw [if_neg (by rw [h]; simp)]
    simp only [PastPapers.totalPagesOf]
  · intro h
    simp only [Forum.totalPagesOf] at h
    simp only [Forum.forum]
    rw [if_neg (by rw [h]; simp)]
    simp only [Forum.totalPagesOf]

/-- Witness for `redirect_on_page_mismatch`: requesting page 99 of a
ten-item past-papers dataset (two pages of nine) redirects to page 2 with
the tag parameter preserved; requesting page 0 of an empty forum dataset
redirects to page 1. -/
theorem redirect_on_page_mismatch_witness :
    PastPapers.pastPaperPage (fun _ => []) "" (JNum.int 99) ["CAT 1"]
        ([1, 2, 3, 4, 5, 6, 7, 8, 9, 10] : List ℕ) =
      Outcome.redirect 2 "" ["CAT 1"] ∧
    Forum.forum (fun _ => []) "" (JNum.int 0) [] ([] : List ℕ) =
      Outcome.redirect 1 "" [] :=
  ⟨(redirect_on_page_mismatch (fun _ => []) "" (JNum.int 99) ["CAT 1"]
      ([1, 2, 3, 4, 5, 6, 7, 8, 9, 10] : List ℕ)).1 rfl,
   (redirect_on_page_mismatch (fun _ => []) "" (JNum.int 0) [] ([] : List ℕ)).2 rfl⟩

/-- Claim C3, counterexample: with an empty post-filter result set
(`totalPages = 0`), requesting page 0 makes the past-papers pipeline emit
a Redirect outcome (to page 1), and requesting page 2 gives validated page
2 — the claim asserts the validated page is 1 and that no Redirect is ever
emitted. -/
theorem empty_result_redirect_cex :
    PastPapers.pastPaperPage (fun _ => []) "" (JNum.int 0) [] ([] : List ℕ) =
      Outcome.redirect 1 "" [] ∧
    validatePage (JNum.int 2) 0 = 2 := by
  constructor <;> rfl

/-- Helper: with an empty post-filter set the past-papers pipeline reduces
to the redirect-versus-empty-render decision against `totalPages = 0`. -/
theorem pastPaperPage_empty {α : Type} (fuse : List α → List (FuseResult α))
    (search : String) (page : JNum) (tags : List String) (dataSet : List α)
    (hpp : PastPapers.filteredPastPapers fuse search dataSet = []) :
    PastPapers.pastPaperPage fuse search page tags dataSet =
      if jsNumEq (validatePage page 0) page then
        Outcome.render [] (validatePage page 0) 0
      else
        Outcome.redirect (validatePage page 0) search tags := by
  simp only [PastPapers.pastPaperPage, hpp, List.length_nil]
  norm_num [jsCeilDuv, PastPapers.pageSize, jsSlice_nil]

/-- Helper: same reduction for the forum pipeline. -/
theorem forum_empty {α : Type} (fuse : List α → List (FuseResult α))
    (search : String) (page : JNum) (tags : List String) (dataSet : List α)
    (hfp : Forum.filteredForumPosts fuse search dataSet = []) :
    Forum.forum fuse search page tags dataSet =
      if jsNumEq (validatePage page 0) page then
        Outcome.render [] (validatePage page 0) 0
      else
        Outcome.redirect (validatePage page 0) search tags := by
  simp only [Forum.forum, hfp, List.length_nil]
  norm_num [jsCeilDuv, Forum.pageSize, jsSlice_nil]

/-- Claim C3 (amended): with an empty post-filter result set
(`totalPages = 0`) the behaviour splits on the requested page: when it is
NaN or an integer below 1, the validated page is 1 and both pipelines emit
a Redirect to page 1 carrying the original search and tag parameters; when
it is an integer at least 1, validation leaves it unchanged — it can stay
above 1 — and an empty page is rendered with no redirect. -/
theorem empty_result_page_behavior {α : Type} (fuse : List α → List (FuseResult α))
    (search : String) (tags : List String) (dataSet : List α) (page : JNum)
    (hpp : PastPapers.filteredPastPapers fuse search dataSet = [])
    (hfp : Forum.filteredForumPosts fuse search dataSet = []) :
    ((page = JNum.nan ∨ ∃ n, page = JNum.int n ∧ n < 1) →
      validatePage page 0 = 1 ∧
      PastPapers.pastPaperPage fuse search page tags dataSet =
        Outcome.redirect 1 search tags ∧
      Forum.forum fuse search page tags dataSet = Outcome.redirect 1 search tags) ∧
    (∀ n : Int, page = JNum.int n → 1 ≤ n →
      validatePage page 0 = n ∧
      PastPapers.pastPaperPage fuse search page tags dataSet =
        Outcome.render ([] : List α) n 0 ∧
      Forum.forum fuse search page tags dataSet = Outcome.render ([] : List α) n 0) := by
  rw [pastPaperPage_empty fuse search page tags dataSet hpp,
    forum_empty fuse search page tags dataSet hfp]
  constructor
  · rintro (rfl | ⟨n, rfl, hn⟩)
    · exact ⟨rfl, rfl, rfl⟩
    · have hv : validatePage (JNum.int n) 0 = 1 := by
        simp only [validatePage]
        rw [if_pos hn]
      have hne : jsNumEq 1 (JNum.int n) = false := by
        simp only [jsNumEq]
        exact beq_eq_false_iff_ne.mpr (by omega)
      rw [hv]
      rw [if_neg (by rw [hne]; simp)]
      exact ⟨rfl, rfl, rfl⟩
  · rintro n rfl hn
    have hv : validatePage (JNum.int n) 0 = n := by
      simp only [validatePage]
      rw [if_neg (by omega), if_neg (by omega)]
    have heq : jsNumEq n (JNum.int n) = true := by
      simp [jsNumEq]
    rw [hv]
    rw [if_pos (by rw [heq])]
    exact ⟨rfl, rfl, rfl⟩

/-- Witness for `empty_result_page_behavior` on an empty dataset: page 0
redirects to page 1 and page 2 renders an empty page with validated page
2. -/
theorem empty_result_page_behavior_witness :
    (validatePage (JNum.int 0) 0 = 1 ∧
      PastPapers.pastPaperPage (fun _ => []) "" (JNum.int 0) [] ([] : List ℕ) =
        Outcome.redirect 1 "" [] ∧
      Forum.forum (fun _ => []) "" (JNum.int 0) [] ([] : List ℕ) =
        Outcome.redirect 1 "" []) ∧
    (validatePage (JNum.int 2) 0 = 2 ∧
      PastPapers.pastPaperPage (fun _ => []) "" (JNum.int 2) [] ([] : List ℕ) =
        Outcome.render ([] : List ℕ) 2 0 ∧
      Forum.forum (fun _ => []) "" (JNum.int 2) [] ([] : List ℕ) =
        Outcome.render ([] : List ℕ) 2 0) :=
  ⟨(empty_result_page_behavior (fun _ => []) "" [] ([] : List ℕ) (JNum.int 0)
      rfl rfl).1 (Or.inr ⟨0, rfl, by decide⟩),
   (empty_result_page_behavior (fun _ => []) "" [] ([] : List ℕ) (JNum.int 2)
      rfl rfl).2 2 rfl (by decide)⟩

end Theorems
